import Mathlib

/-!
Verification of `src/share.py` (A-share historical data downloader).

Shallow embedding of the script's core logic:
* `fetchGo` embeds `fetch_stock_history` (the Remote Fetcher with its
  retry/backoff branches), driven by a finite schedule of per-attempt
  HTTP outcomes; it additionally records the sleep events it performs.
* `DownloadStatus`, `load_download_status`, `save_download_status` embed
  the Progress Store; the JSON file layer is embedded as a small JSON AST
  with an encoder (`statusToJson`, what `json.dump` writes) and a decoder
  (`statusOfJson`, the field accesses `status["completed"]` etc. that the
  script performs on the parsed dict).
* `MainState`, `initMain`, `loopStep`, `runLoop`, `finalizeRun`, `mainRun`
  embed the `main` orchestrator: checkpoint load/init, the pre-creation of
  the output CSV, the per-identifier loop, batched flushing, the final
  flush, the summary phase and the unconditional checkpoint removal.

The fetch outcome seen by the orchestrator is abstracted as an oracle
`outcome : String → Option RowSet` (the call-site contract of
`fetch_stock_history`); the Fetcher's internals are verified separately
against `fetchGo`.  Wall-clock sleeps, console prints and the tqdm
progress bar have no effect on the persisted or in-memory data and are
not modelled, except that sleeps performed inside the Fetcher are logged
as `SleepEvent`s because the specification constrains their durations.
-/

namespace Share

/-- Constant `MAX_RETRIES = 5` (share.py line 15). -/
def MAX_RETRIES : Nat := 5

/-- Constant `BATCH_SIZE = 50` (share.py line 16). -/
def BATCH_SIZE : Nat := 50

/-- The row-set returned for one identifier: the comma-split kline rows,
tagged with the owning stock code (share.py lines 66–70). -/
structure RowSet where
  code : String
  rows : List (List String)
deriving Repr, DecidableEq

/-- Builds the RowSet: `pd.DataFrame([k.split(",") for k in klines],
columns=...)` followed by `df["股票代码"] = code` (share.py lines 66–69). -/
def mkRowSet (code : String) (klines : List String) : RowSet :=
  { code := code, rows := klines.map (fun k => k.splitOn ",") }

/-- Observable outcome of one `requests.get` attempt inside the `try`
block of `fetch_stock_history`:
* `response status payload` — the GET returned with `status_code = status`;
  for a 200 response, `payload` is `some klines` when `data.get("data")`
  is truthy (with `klines = data["data"]["klines"]`) and `none` when it
  is absent/falsy;
* `exn` — the request (or the parsing of its payload) raised an
  exception, landing in the `except` clause (share.py line 76). -/
inductive HttpResult where
  | response (status : Nat) (payload : Option (List String))
  | exn
deriving Repr, DecidableEq

/-- A sleep performed by the Fetcher:
* `sleep429 w` — `time.sleep(60 * (retry_count + 1))` on HTTP 429, with
  the exact duration `w` in seconds (share.py lines 72–74);
* `backoff` — `time.sleep(random.uniform(10, 30))` on an exception, a
  uniformly random 10–30s draw (share.py lines 78–80); the drawn value is
  random so only the event is recorded. -/
inductive SleepEvent where
  | sleep429 (w : Nat)
  | backoff
deriving Repr, DecidableEq

/-- Result of `fetch_stock_history`: a row-set, `None`, or — since the
recursion on HTTP 429 is unbounded in the source — the marker that the
finite schedule of modelled attempts was exhausted with the function
still running. -/
inductive FetchResult where
  | found (r : RowSet)
  | absent
  | outOfSchedule
deriving Repr, DecidableEq

/-- Embeds `fetch_stock_history(code, retry_count)` (share.py lines 53–82), driven
by a finite schedule of attempt outcomes (one schedule entry consumed per
HTTP attempt), returning the result together with the list of sleeps
performed:
* HTTP 200 with truthy `data`: build the DataFrame and return it;
* HTTP 200 with falsy `data`: fall through to `return None`;
* HTTP 429: sleep `60 * (retry_count + 1)` seconds, recurse with
  `retry_count + 1` — no cap;
* any other status: fall through to `return None` (no retry, no sleep);
* exception: if `retry_count < MAX_RETRIES` sleep a uniform 10–30s draw
  and recurse with `retry_count + 1`, otherwise `return None`. -/
def fetchGo (code : String) : List HttpResult → Nat → FetchResult × List SleepEvent
  | [], _ => (FetchResult.outOfSchedule, [])
  | HttpResult.response status payload :: rest, retry_count =>
    if status = 200 then
      match payload with
      | some klines => (FetchResult.found (mkRowSet code klines), [])
      | none => (FetchResult.absent, [])
    else if status = 429 then
      let w := 60 * (retry_count + 1)
      let next := fetchGo code rest (retry_count + 1)
      (next.1, SleepEvent.sleep429 w :: next.2)
    else (FetchResult.absent, [])
  | HttpResult.exn :: rest, retry_count =>
    if retry_count < MAX_RETRIES then
      let next := fetchGo code rest (retry_count + 1)
      (next.1, SleepEvent.backoff :: next.2)
    else (FetchResult.absent, [])

/-- The download-status record `{total, completed, remaining, start_time}`
(share.py lines 110–115).  `start_time` is `time.time()`, modelled as an
integer timestamp.  The in-memory default returned by
`load_download_status` when no status file exists has no `start_time` key
in the source; since that default is immediately replaced by a freshly
initialized record (its `total` is 0) before `start_time` is ever read,
it is modelled here with `start_time = 0`. -/
structure DownloadStatus where
  completed : List String
  remaining : List String
  total : Nat
  start_time : Int
deriving Repr, DecidableEq

/-- A JSON value, as preserved exactly by the `json.dump` / `json.load`
round trip (the JSON text layer is an external collaborator with a fixed
contract).  Numbers are modelled as integers, covering the fields the
script stores. -/
inductive Json where
  | str (s : String)
  | num (n : Int)
  | arr (elems : List Json)
  | obj (fields : List (String × Json))

/-- Look up a key in a JSON object — the dict access `status[key]`
performed by the script on the parsed status. -/
def Json.get : Json → String → Option Json
  | Json.obj fields, key => (fields.find? (fun p => p.1 = key)).map Prod.snd
  | _, _ => none

/-- Decode a list of JSON values all of which are strings. -/
def decodeStrings : List Json → Option (List String)
  | [] => some []
  | Json.str s :: rest => (decodeStrings rest).map (fun l => s :: l)
  | _ :: _ => none

/-- Decode a JSON array of strings (the `completed` / `remaining` lists). -/
def jsonStringList : Json → Option (List String)
  | Json.arr elems => decodeStrings elems
  | _ => none

/-- What `json.dump(status, f)` writes for a status record
(share.py lines 93–96 together with the record built at lines 110–115). -/
def statusToJson (s : DownloadStatus) : Json :=
  Json.obj
    [("total", Json.num s.total),
     ("completed", Json.arr (s.completed.map Json.str)),
     ("remaining", Json.arr (s.remaining.map Json.str)),
     ("start_time", Json.num s.start_time)]

/-- The accesses `main` performs on the parsed status dict —
`status["completed"]`, `status["remaining"]`, `status["total"]`,
`status["start_time"]` — assembled into a record; `none` when a field is
missing or of the wrong shape (in the source such a dict would raise a
`KeyError`/`TypeError` later). -/
def statusOfJson (j : Json) : Option DownloadStatus := do
  let completed ← (j.get "completed").bind jsonStringList
  let remaining ← (j.get "remaining").bind jsonStringList
  let total ←
    match j.get "total" with
    | some (Json.num n) => n.toNat'
    | _ => none
  let start_time ←
    match j.get "start_time" with
    | some (Json.num n) => some n
    | _ => none
  pure { completed := completed, remaining := remaining,
         total := total, start_time := start_time }

/-- Embeds `load_download_status()` (share.py lines 85–90): if the status file
exists return its parsed contents, else the default
`{"completed": [], "remaining": [], "total": 0}`.  The file state is the
`Option DownloadStatus` currently persisted. -/
def load_download_status (file : Option DownloadStatus) : DownloadStatus :=
  match file with
  | some s => s
  | none => { completed := [], remaining := [], total := 0, start_time := 0 }

/-- Embeds `save_download_status(status)` (share.py lines 93–96): overwrite the
status file with the record. -/
def save_download_status (s : DownloadStatus) : Option DownloadStatus :=
  some s

/-- One flush of the Batch Writer: how many buffered RowSets were
concatenated and whether the CSV header was written
(share.py lines 149–153 and 168–171). -/
structure FlushEvent where
  count : Nat
  header : Bool
deriving Repr, DecidableEq

/-- Number of bytes `pd.DataFrame().to_csv(OUTPUT_FILE, index=False,
encoding="utf_8_sig")` puts into the freshly created output file
(share.py lines 132–133): the UTF-8 BOM (3 bytes) plus the empty header
row's line terminator.  What matters to the program is only that this is
non-zero: the header condition at each flush tests
`os.stat(OUTPUT_FILE).st_size == 0`. -/
def PRECREATE_SIZE : Nat := 4

/-- Total number of data rows across a list of buffered RowSets. -/
def totalRows (l : List RowSet) : Nat :=
  (l.map (fun r => r.rows.length)).sum

/-- The full state of `main` that the claims are about:
the in-memory `status` dict, the on-disk status file, the `all_data`
buffer, `success_count`, the output file (existence and size in bytes),
plus two logs — the flush events performed and the identifiers passed to
`fetch_stock_history`. -/
structure MainState where
  status : DownloadStatus
  statusFile : Option DownloadStatus
  allData : List RowSet
  successCount : Nat
  fileExists : Bool
  fileSize : Nat
  flushes : List FlushEvent
  fetchLog : List String
deriving Repr, DecidableEq

/-- One Batch-Writer flush (share.py lines 150–153, also 169–171):
`pd.concat(all_data).to_csv(OUTPUT_FILE, mode="a", header=not
os.path.exists(OUTPUT_FILE) or os.stat(OUTPUT_FILE).st_size == 0, ...)`
then clear the buffer.  The bytes appended are counted as the BOM (3)
plus one per written line (header line if any, and one line per data
row); the program only ever tests the size against 0, so only
positivity of the increment matters. -/
def flushBuffer (s : MainState) : MainState :=
  let header := !s.fileExists || s.fileSize = 0
  let bytes := 3 + (if header then 1 else 0) + totalRows s.allData
  { s with
    fileExists := true
    fileSize := s.fileSize + bytes
    flushes := s.flushes ++ [{ count := s.allData.length, header := header }]
    allData := [] }

/-- One iteration of the download loop (share.py lines 138–163) for
identifier `code`, given the Option-RowSet outcome of
`fetch_stock_history(code)`:
* `None`: no state change (the sleep and tqdm update are unmodelled);
* `some df`: append `df` to `all_data`, append `code` to
  `status["completed"]`, bump `success_count`, flush if the buffer
  reached `BATCH_SIZE`, then `status["remaining"] =
  status["remaining"][1:]` — the source drops the HEAD of `remaining`,
  not `code` itself — and persist the record. -/
def loopStep (s : MainState) (code : String) (df : Option RowSet) : MainState :=
  let s := { s with fetchLog := s.fetchLog ++ [code] }
  match df with
  | none => s
  | some r =>
    let s := { s with
      allData := s.allData ++ [r]
      status := { s.status with completed := s.status.completed ++ [code] }
      successCount := s.successCount + 1 }
    let s := if BATCH_SIZE ≤ s.allData.length then flushBuffer s else s
    let st := { s.status with remaining := s.status.remaining.drop 1 }
    { s with status := st, statusFile := save_download_status st }

/-- The loop `for i, code in enumerate(status["remaining"])`
(share.py lines 138–163).  `enumerate` captures the list object bound to
`status["remaining"]` at loop entry; the later rebinding
`status["remaining"] = status["remaining"][1:]` creates fresh lists and
never mutates the captured one, so the iteration runs over the entry
snapshot in order. -/
def runLoop (outcome : String → Option RowSet) (snapshot : List String)
    (s : MainState) : MainState :=
  snapshot.foldl (fun s code => loopStep s code (outcome code)) s

/-- The states after each completed loop iteration (the final element is
the post-loop state). -/
def loopStates (outcome : String → Option RowSet) (snapshot : List String)
    (s : MainState) : List MainState :=
  (snapshot.scanl (fun s code => loopStep s code (outcome code)) s).tail

/-- Embeds `main` before the loop (share.py lines 99–136): load the status file;
if `status["total"]` is falsy, build a fresh record with all of
`all_codes` in `remaining` and persist it; set
`success_count = len(status["completed"])`; create the output CSV via an
empty-DataFrame write if it does not exist. -/
def initMain (all_codes : List String) (now : Int)
    (statusFile0 : Option DownloadStatus)
    (fileExists0 : Bool) (fileSize0 : Nat) : MainState :=
  let loaded := load_download_status statusFile0
  let init :=
    if loaded.total = 0 then
      let fresh : DownloadStatus :=
        { total := all_codes.length, completed := [],
          remaining := all_codes, start_time := now }
      (fresh, save_download_status fresh)
    else (loaded, statusFile0)
  let file :=
    if fileExists0 then (true, fileSize0) else (true, PRECREATE_SIZE)
  { status := init.1
    statusFile := init.2
    allData := []
    successCount := init.1.completed.length
    fileExists := file.1
    fileSize := file.2
    flushes := []
    fetchLog := [] }

/-- Embeds `main` after the loop (share.py lines 167–187): final flush of any
buffered remainder (`if all_data:`), print the summary, then delete the
status file (`if os.path.exists(STATUS_FILE): os.remove(STATUS_FILE)` —
the file state ends at `none` either way). -/
def finalizeRun (s : MainState) : MainState :=
  let s := if s.allData.isEmpty then s else flushBuffer s
  { s with statusFile := none }

/-- The whole of `main` (share.py lines 99–187), parameterised by the
universe returned by `get_filtered_stock_codes`, the current time, the
fetch-outcome oracle, and the initial on-disk state of the status file
and the output file. -/
def mainRun (all_codes : List String) (now : Int)
    (outcome : String → Option RowSet)
    (statusFile0 : Option DownloadStatus)
    (fileExists0 : Bool) (fileSize0 : Nat) : MainState :=
  let s0 := initMain all_codes now statusFile0 fileExists0 fileSize0
  finalizeRun (runLoop outcome s0.status.remaining s0)

/-! Concrete fetch-outcome oracles and row-sets used to evaluate the
orchestrator on specific runs. -/

/-- A small concrete RowSet for identifier "000001" (three daily bars). -/
def rs000001 : RowSet :=
  { code := "000001", rows := [["d1", "1", "2"], ["d2", "3", "4"], ["d3", "5", "6"]] }

/-- A small concrete RowSet for identifier "600519" (three daily bars). -/
def rs600519 : RowSet :=
  { code := "600519", rows := [["d1", "a"], ["d2", "b"], ["d3", "c"]] }

/-- Oracle: the fetch of "000001" succeeds, every other fetch fails. -/
def demoOutcome1 : String → Option RowSet :=
  fun c => if c = "000001" then some rs000001 else none

/-- Oracle: the fetch of "600519" succeeds, every other fetch fails. -/
def demoOutcome2 : String → Option RowSet :=
  fun c => if c = "600519" then some rs600519 else none

/-- Oracle: every fetch fails. -/
def outcomeNone : String → Option RowSet := fun _ => none

/-- Oracle: every fetch succeeds with a one-row RowSet. -/
def outcomeAll : String → Option RowSet :=
  fun c => some { code := c, rows := [["x", "y"]] }

/-! ### C9 — non-200/non-429 HTTP status -/

/-- C9: a fetch attempt whose HTTP request completes with a status code
that is neither 200 nor 429 makes `fetch_stock_history` return `None`
immediately: no sleep is performed, no further schedule entry is
consumed, and the retry counter plays no role (the result is the same
for every `retry_count`). -/
theorem fetch_other_status_returns_absent_immediately
    (code : String) (status : Nat) (payload : Option (List String))
    (rest : List HttpResult) (retry_count : Nat)
    (h200 : status ≠ 200) (h429 : status ≠ 429) :
    fetchGo code (HttpResult.response status payload :: rest) retry_count
      = (FetchResult.absent, []) := by
  simp [fetchGo, h200, h429]

/-- Witness for C9 at HTTP status 500. -/
theorem fetch_other_status_returns_absent_immediately_witness :
    fetchGo "600519" [HttpResult.response 500 none, HttpResult.exn] 3
      = (FetchResult.absent, []) :=
  fetch_other_status_returns_absent_immediately "600519" 500 none
    [HttpResult.exn] 3 (by decide) (by decide)

/-! ### C5 — exhaustion of non-429 retries -/

/-- C5 counterexample: an attempt sequence of exactly 5 consecutive
non-429 errors followed by a successful response makes
`fetch_stock_history` return the RowSet, not `None` — after the 5th
error the counter is 4 < MAX_RETRIES, so a 6th attempt is made.  Hence
"5 consecutive non-429 errors" do not make the Fetcher return absent. -/
theorem fetch_five_errors_then_success_returns_rowset :
    fetchGo "600519"
        (List.replicate 5 HttpResult.exn ++ [HttpResult.response 200 (some ["a,b"])]) 0
      = (FetchResult.found (mkRowSet "600519" ["a,b"]),
         List.replicate 5 SleepEvent.backoff) := by
  rfl

/-- C5 amended: 6 consecutive non-429 errors (attempt counters 0 through
5) make `fetch_stock_history` return `None`, after exactly 5 backoff
sleeps (a retry on such an error happens only while the counter is below
`MAX_RETRIES = 5`, and each such retry sleeps a uniform 10–30s draw);
the rest of the schedule is never consumed.  Moreover an absent fetch
result leaves the Orchestrator's state unchanged apart from the fetch
log, so the identifier stays in `remaining` and the loop continues. -/
theorem fetch_absent_after_six_consecutive_errors :
    (∀ (code : String) (rest : List HttpResult),
      fetchGo code (List.replicate 6 HttpResult.exn ++ rest) 0
        = (FetchResult.absent, List.replicate 5 SleepEvent.backoff))
    ∧ (∀ (s : MainState) (c : String),
      loopStep s c none = { s with fetchLog := s.fetchLog ++ [c] }) := by
  exact ⟨fun code rest => rfl, fun s c => rfl⟩

/-! ### C6 — HTTP 429 backoff -/

/-- Sleep durations for a chain of `k` rate-limit retries that began at
counter `n`: attempt `n + i` sleeps `60 * (n + i + 1)` seconds. -/
theorem fetch_429_chain (code : String) (klines : List String)
    (rest : List HttpResult) :
    ∀ (k n : Nat),
      fetchGo code
          (List.replicate k (HttpResult.response 429 none)
            ++ HttpResult.response 200 (some klines) :: rest) n
        = (FetchResult.found (mkRowSet code klines),
           (List.range k).map (fun i => SleepEvent.sleep429 (60 * (n + i + 1)))) := by
  intro k
  induction k with
  | zero => intro n; simp [fetchGo]
  | succ k ih =>
    intro n
    rw [List.replicate_succ, List.cons_append]
    simp only [fetchGo, ih (n + 1)]
    simp [List.range_succ_eq_map, List.map_map, Function.comp,
      Nat.add_assoc, Nat.add_comm, Nat.add_left_comm]

/-- C6: a fetch attempt that receives HTTP 429 at counter `n` sleeps
exactly `60 * (n + 1)` seconds and then retries with counter `n + 1`
(first conjunct — one unfolding step of the 429 branch, valid for every
counter, so the wait grows linearly with the attempt count and the
second attempt after a first-attempt 429 waits 60s); and the number of
such rate-limit retries is unbounded: for EVERY `k`, a schedule of `k`
consecutive 429 responses followed by a success still returns the
RowSet, having slept `60·1, 60·2, …, 60·k` seconds (second conjunct). -/
theorem fetch_429_linear_backoff_unbounded :
    (∀ (code : String) (payload : Option (List String))
        (rest : List HttpResult) (n : Nat),
      fetchGo code (HttpResult.response 429 payload :: rest) n
        = ((fetchGo code rest (n + 1)).1,
           SleepEvent.sleep429 (60 * (n + 1)) :: (fetchGo code rest (n + 1)).2))
    ∧ (∀ (code : String) (klines : List String) (rest : List HttpResult) (k : Nat),
      fetchGo code
          (List.replicate k (HttpResult.response 429 none)
            ++ HttpResult.response 200 (some klines) :: rest) 0
        = (FetchResult.found (mkRowSet code klines),
           (List.range k).map (fun i => SleepEvent.sleep429 (60 * (i + 1))))) := by
  constructor
  · intro code payload rest n
    simp [fetchGo]
  · intro code klines rest k
    rw [fetch_429_chain code klines rest k 0]
    simp

/-! ### C1 / C2 — the `remaining[1:]` slip

On a successful fetch the source removes the HEAD of `remaining`
(`status["remaining"] = status["remaining"][1:]`, share.py line 156)
instead of the identifier that succeeded.  Whenever a failed identifier
precedes a successful one in the loop, this removes the wrong element. -/

/-- C1: evaluation of `main` at a failing input.  Universe
`["600519", "000001"]`, fresh run; the fetch of "600519" fails and the
fetch of "000001" succeeds.  After the second loop iteration (equally in
the final state, whose `status` the finalization does not change) the
record is `completed = ["000001"]`, `remaining = ["000001"]`: the failed
identifier "600519" has vanished from both sequences, and "000001" sits
in both — `completed ∪ remaining` is no longer the universe and
`completed ∩ remaining` is not empty, refuting the claimed partition
invariant. -/
theorem main_partition_invariant_violated :
    (mainRun ["600519", "000001"] 100 demoOutcome1 none false 0).status.completed
        = ["000001"]
    ∧ (mainRun ["600519", "000001"] 100 demoOutcome1 none false 0).status.remaining
        = ["000001"]
    ∧ (mainRun ["600519", "000001"] 100 demoOutcome1 none false 0).status.total = 2
    ∧ "600519" ∉ (mainRun ["600519", "000001"] 100 demoOutcome1 none false 0).status.completed
    ∧ "600519" ∉ (mainRun ["600519", "000001"] 100 demoOutcome1 none false 0).status.remaining
    ∧ "000001" ∈ (mainRun ["600519", "000001"] 100 demoOutcome1 none false 0).status.completed
    ∧ "000001" ∈ (mainRun ["600519", "000001"] 100 demoOutcome1 none false 0).status.remaining := by
  decide

/-- C2: evaluation of the loop at a failing input.  Universe
`["000001", "600519"]`, fresh run; the fetch of "000001" fails, then the
Fetcher returns a RowSet for c = "600519".  In the post-state of that
iteration c was appended to `completed`, but c was NOT removed from
`remaining` — the code dropped the head "000001" (a different,
still-unfetched identifier) instead — and this corrupted record is what
was persisted. -/
theorem main_success_removes_wrong_identifier :
    (runLoop demoOutcome2 ["000001", "600519"]
        (initMain ["000001", "600519"] 100 none false 0)).status.completed
        = ["600519"]
    ∧ (runLoop demoOutcome2 ["000001", "600519"]
        (initMain ["000001", "600519"] 100 none false 0)).status.remaining
        = ["600519"]
    ∧ (runLoop demoOutcome2 ["000001", "600519"]
        (initMain ["000001", "600519"] 100 none false 0)).statusFile
        = some { completed := ["600519"], remaining := ["600519"],
                 total := 2, start_time := 100 }
    ∧ (initMain ["000001", "600519"] 100 none false 0).status.remaining
        = ["000001", "600519"] := by
  decide

/-! ### C8 — unconditional checkpoint clearing -/

/-- C8: every run that reaches the post-loop phase ends with the status
file deleted — for ALL initial conditions and fetch outcomes the final
`statusFile` is `none` — so a subsequent run's `load_download_status`
returns the zero-total default and its initialization places the whole
(new) universe in `remaining` with an empty `completed`. -/
theorem checkpoint_cleared_unconditionally
    (codes : List String) (now : Int) (outcome : String → Option RowSet)
    (statusFile0 : Option DownloadStatus) (fileExists0 : Bool) (fileSize0 : Nat)
    (codes2 : List String) (now2 : Int) (fileExists2 : Bool) (fileSize2 : Nat) :
    (mainRun codes now outcome statusFile0 fileExists0 fileSize0).statusFile = none
    ∧ load_download_status
        (mainRun codes now outcome statusFile0 fileExists0 fileSize0).statusFile
        = { completed := [], remaining := [], total := 0, start_time := 0 }
    ∧ (initMain codes2 now2
        (mainRun codes now outcome statusFile0 fileExists0 fileSize0).statusFile
        fileExists2 fileSize2).status
        = { completed := [], remaining := codes2,
            total := codes2.length, start_time := now2 } := by
  have h : (mainRun codes now outcome statusFile0 fileExists0 fileSize0).statusFile
      = none := by
    simp only [mainRun, finalizeRun]
  refine ⟨h, ?_, ?_⟩
  · rw [h]; rfl
  · rw [h]; rfl

/-! ### C3 — identifiers passed to the Fetcher on a resumed run -/

/-- Every loop iteration passes exactly its identifier to the Fetcher,
whatever the fetch outcome. -/
theorem loopStep_fetchLog (s : MainState) (c : String) (df : Option RowSet) :
    (loopStep s c df).fetchLog = s.fetchLog ++ [c] := by
  cases df with
  | none => rfl
  | some r =>
    simp only [loopStep]
    split <;> simp [flushBuffer]

/-- The loop passes exactly the entry snapshot of `remaining`, in order,
to the Fetcher. -/
theorem runLoop_fetchLog (outcome : String → Option RowSet)
    (snapshot : List String) (s : MainState) :
    (runLoop outcome snapshot s).fetchLog = s.fetchLog ++ snapshot := by
  induction snapshot generalizing s with
  | nil => simp [runLoop]
  | cons c t ih =>
    show (runLoop outcome t (loopStep s c (outcome c))).fetchLog = _
    rw [ih, loopStep_fetchLog, List.append_assoc]
    rfl

/-- Finalization performs no fetch. -/
theorem finalizeRun_fetchLog (s : MainState) :
    (finalizeRun s).fetchLog = s.fetchLog := by
  simp only [finalizeRun]
  split <;> simp [flushBuffer]

/-- C3 amended: a run that starts from a loaded checkpoint with non-zero
total passes exactly the checkpoint's `remaining` list to the Fetcher
(it never consults `completed`); therefore, PROVIDED the checkpoint's
`completed` and `remaining` lists are disjoint — which holds for every
well-formed checkpoint but can fail for one the program itself persists
after a failure-then-success pattern — no identifier in `completed` is
ever fetched during that run. -/
theorem resumed_run_fetches_only_remaining
    (ckpt : DownloadStatus) (codes : List String) (now : Int)
    (outcome : String → Option RowSet) (fileExists0 : Bool) (fileSize0 : Nat)
    (htotal : ckpt.total ≠ 0)
    (hdisj : ∀ c ∈ ckpt.completed, c ∉ ckpt.remaining) :
    (mainRun codes now outcome (some ckpt) fileExists0 fileSize0).fetchLog
        = ckpt.remaining
    ∧ ∀ c ∈ ckpt.completed,
        c ∉ (mainRun codes now outcome (some ckpt) fileExists0 fileSize0).fetchLog := by
  have hlog : (mainRun codes now outcome (some ckpt) fileExists0 fileSize0).fetchLog
      = ckpt.remaining := by
    simp only [mainRun]
    rw [finalizeRun_fetchLog, runLoop_fetchLog]
    simp [initMain, load_download_status, htotal]
  exact ⟨hlog, fun c hc => by rw [hlog]; exact hdisj c hc⟩

/-- Witness for C3 (amended) at a disjoint two-identifier checkpoint. -/
theorem resumed_run_fetches_only_remaining_witness :
    ("600519" : String)
      ∉ (mainRun [] 0 outcomeNone
          (some { completed := ["600519"], remaining := ["000001"],
                  total := 2, start_time := 0 }) false 0).fetchLog :=
  (resumed_run_fetches_only_remaining
      { completed := ["600519"], remaining := ["000001"],
        total := 2, start_time := 0 }
      [] 0 outcomeNone false 0 (by decide) (by decide)).2
    "600519" (by decide)

/-- C3 counterexample: the claim as stated fails.  A loaded checkpoint
with non-zero total whose `completed` and `remaining` overlap —
`completed = ["000001"]`, `remaining = ["000001", "600519"]` — makes the
run pass "000001", an identifier contained in the checkpoint's
`completed` list, to the Fetcher: the loop iterates over all of
`remaining` without checking `completed`. -/
theorem resumed_run_refetches_completed_identifier :
    ({ completed := ["000001"], remaining := ["000001", "600519"],
       total := 2, start_time := 0 } : DownloadStatus).total ≠ 0
    ∧ "000001" ∈ ({ completed := ["000001"], remaining := ["000001", "600519"],
                    total := 2, start_time := 0 } : DownloadStatus).completed
    ∧ "000001" ∈ (mainRun [] 0 outcomeNone
        (some { completed := ["000001"], remaining := ["000001", "600519"],
                total := 2, start_time := 0 }) false 0).fetchLog := by
  decide

/-! ### C4 — the CSV header is never written on a fresh run

Each flush does compute `header = not os.path.exists(OUTPUT_FILE) or
os.stat(OUTPUT_FILE).st_size == 0` (the iff of the claim is the literal
flush-time condition, see `flushBuffer`).  But `main` pre-creates the
output file before the loop with `pd.DataFrame().to_csv(OUTPUT_FILE,
index=False, encoding="utf_8_sig")` (share.py lines 132–133), which
writes the UTF-8 BOM and the empty header row's newline — a NON-empty
file.  So on a fresh run every flush finds an existing non-empty file
and the header is never written, contradicting the contract that the
header is written exactly once on the first write of a fresh file. -/

/-- C4: evaluation of `main` at a failing input.  Fresh run (no output
file, no checkpoint), universe `["600519"]`, the single fetch succeeds:
initialization leaves the output file existing and non-empty, and the
run performs exactly one flush — of the one RowSet — with
`header = false`.  No flush of the run writes a header. -/
theorem fresh_run_never_writes_header :
    (initMain ["600519"] 0 none false 0).fileExists = true
    ∧ (initMain ["600519"] 0 none false 0).fileSize ≠ 0
    ∧ (mainRun ["600519"] 0 demoOutcome2 none false 0).flushes
        = [{ count := 1, header := false }]
    ∧ (mainRun ["600519"] 0 demoOutcome2 none false 0).flushes.all
        (fun e => !e.header) = true := by
  decide

/-! ### C7 — batched flushing -/

/-- Fields of a successful loop iteration relevant to the Batch Writer:
when the buffer reaches `BATCH_SIZE` the RowSets are flushed (one flush
event of exactly the buffer's size) and the buffer is cleared; otherwise
the RowSet is only appended. -/
theorem loopStep_some_batch (s : MainState) (c : String) (r : RowSet) :
    (BATCH_SIZE ≤ s.allData.length + 1 →
      (loopStep s c (some r)).allData = []
      ∧ (loopStep s c (some r)).flushes.map (fun e => e.count)
          = s.flushes.map (fun e => e.count) ++ [s.allData.length + 1])
    ∧ (s.allData.length + 1 < BATCH_SIZE →
      (loopStep s c (some r)).allData = s.allData ++ [r]
      ∧ (loopStep s c (some r)).flushes = s.flushes) := by
  constructor
  · intro hge
    simp [loopStep, flushBuffer, hge]
  · intro hlt
    have hne : ¬ BATCH_SIZE ≤ s.allData.length + 1 := by omega
    simp [loopStep, hne]

/-- Batch-Writer invariant of the loop: starting from a buffer below the
threshold, after processing a snapshot with `k` successful fetches the
buffer holds `(initial + k) % BATCH_SIZE` RowSets and the loop has
emitted one flush of exactly `BATCH_SIZE` RowSets per threshold crossing
— `(initial + k) / BATCH_SIZE` of them. -/
theorem runLoop_batch_inv (outcome : String → Option RowSet) :
    ∀ (snapshot : List String) (s : MainState),
      s.allData.length < BATCH_SIZE →
      (runLoop outcome snapshot s).allData.length
          = (s.allData.length + snapshot.countP (fun c => (outcome c).isSome))
              % BATCH_SIZE
      ∧ (runLoop outcome snapshot s).flushes.map (fun e => e.count)
          = s.flushes.map (fun e => e.count)
            ++ List.replicate
                ((s.allData.length + snapshot.countP (fun c => (outcome c).isSome))
                  / BATCH_SIZE) BATCH_SIZE := by
  intro snapshot
  induction snapshot with
  | nil =>
    intro s hs
    constructor
    · simp [runLoop, Nat.mod_eq_of_lt hs]
    · simp [runLoop, Nat.div_eq_of_lt hs]
  | cons c t ih =>
    intro s hs
    have hstep : runLoop outcome (c :: t) s
        = runLoop outcome t (loopStep s c (outcome c)) := rfl
    rw [hstep]
    cases houtcome : outcome c with
    | none =>
      have hcount : List.countP (fun x => (outcome x).isSome) (c :: t)
          = List.countP (fun x => (outcome x).isSome) t := by
        simp [List.countP_cons, houtcome]
      rw [hcount]
      have hnone : loopStep s c none = { s with fetchLog := s.fetchLog ++ [c] } := rfl
      rw [hnone]
      obtain ⟨h1, h2⟩ := ih { s with fetchLog := s.fetchLog ++ [c] } hs
      exact ⟨by rw [h1], by rw [h2]⟩
    | some r =>
      have hcount : List.countP (fun x => (outcome x).isSome) (c :: t)
          = List.countP (fun x => (outcome x).isSome) t + 1 := by
        simp [List.countP_cons, houtcome]
      rw [hcount]
      obtain ⟨hflush, hkeep⟩ := loopStep_some_batch s c r
      by_cases hfull : BATCH_SIZE ≤ s.allData.length + 1
      · obtain ⟨ha, hf⟩ := hflush hfull
        have hfull50 : s.allData.length + 1 = BATCH_SIZE := by omega
        obtain ⟨h1, h2⟩ := ih (loopStep s c (some r))
          (by rw [ha]; simp [BATCH_SIZE])
        rw [ha] at h1 h2
        simp only [List.length_nil, Nat.zero_add] at h1 h2
        constructor
        · rw [h1]
          simp only [BATCH_SIZE] at hfull50 ⊢
          omega
        · rw [h2, hf]
          have harith :
              (s.allData.length + (List.countP (fun x => (outcome x).isSome) t + 1))
                  / BATCH_SIZE
                = List.countP (fun x => (outcome x).isSome) t / BATCH_SIZE + 1 := by
            simp only [BATCH_SIZE] at hfull50 ⊢
            omega
          rw [harith, List.replicate_succ, hfull50]
          simp [List.append_assoc]
      · have hlt2 : s.allData.length + 1 < BATCH_SIZE := by omega
        obtain ⟨ha, hf⟩ := hkeep hlt2
        obtain ⟨h1, h2⟩ := ih (loopStep s c (some r))
          (by rw [ha]; simpa using hlt2)
        rw [ha] at h1 h2
        simp only [List.length_append, List.length_cons, List.length_nil,
          Nat.zero_add] at h1 h2
        have e1 : s.allData.length + 1 + List.countP (fun x => (outcome x).isSome) t
            = s.allData.length + (List.countP (fun x => (outcome x).isSome) t + 1) := by
          omega
        constructor
        · rw [h1, e1]
        · rw [h2, hf, e1]

/-- Finalization flushes the buffered remainder exactly when it is
non-empty, as one flush event of the remainder's size. -/
theorem finalizeRun_flushes (s : MainState) :
    (finalizeRun s).flushes.map (fun e => e.count)
      = s.flushes.map (fun e => e.count)
        ++ (if s.allData.length = 0 then [] else [s.allData.length]) := by
  simp only [finalizeRun]
  cases hdata : s.allData with
  | nil => simp [hdata]
  | cons a l => simp [flushBuffer, hdata]

/-- C7: for every run started with an empty buffer, the sequence of
flush sizes is exactly `BATCH_SIZE, BATCH_SIZE, …` (one per 50
accumulated RowSets, `k / 50` of them where `k` is the number of
successful fetches) followed by one final flush of the non-zero
remainder `k % 50` when there is one — so a run with 51 successes
performs exactly 2 flush events, of 50 and 1 RowSets (see the witness). -/
theorem batch_writer_flush_sizes (outcome : String → Option RowSet)
    (snapshot : List String) (s : MainState) (hbuf : s.allData = []) :
    (finalizeRun (runLoop outcome snapshot s)).flushes.map (fun e => e.count)
      = s.flushes.map (fun e => e.count)
        ++ List.replicate
            (snapshot.countP (fun c => (outcome c).isSome) / BATCH_SIZE) BATCH_SIZE
        ++ (if snapshot.countP (fun c => (outcome c).isSome) % BATCH_SIZE = 0
            then []
            else [snapshot.countP (fun c => (outcome c).isSome) % BATCH_SIZE]) := by
  obtain ⟨h1, h2⟩ := runLoop_batch_inv outcome snapshot s
    (by rw [hbuf]; simp [BATCH_SIZE])
  rw [finalizeRun_flushes, h1, h2, hbuf]
  simp [List.append_assoc]

/-- Witness for C7: a fresh run over 51 identifiers whose fetches all
succeed performs exactly 2 flush events — one of 50 RowSets when the
buffer reaches the threshold, one final flush of the 1 remaining
RowSet. -/
theorem batch_writer_flush_sizes_witness :
    (finalizeRun (runLoop outcomeAll (List.replicate 51 "600519")
        (initMain (List.replicate 51 "600519") 0 none false 0))).flushes.map
        (fun e => e.count)
      = [50, 1] := by
  rw [batch_writer_flush_sizes outcomeAll (List.replicate 51 "600519")
    (initMain (List.replicate 51 "600519") 0 none false 0) rfl]
  decide

/-! ### C10 — save/load round trip of the download status -/

/-- Decoding inverts the encoding of a list of strings. -/
theorem decodeStrings_map_str (l : List String) :
    decodeStrings (l.map Json.str) = some l := by
  induction l with
  | nil => rfl
  | cons a t ih => simp [decodeStrings, ih]

/-- C10: saving then loading the download status is a round trip.  At
the file level, `load_download_status` after `save_download_status r`
returns `r` itself (first conjunct); and through the JSON layer, the
object `json.dump` writes for `r` decodes — by the very field accesses
the script performs — back to `r`, with `completed`, `remaining`,
`total` and `start_time` each preserved exactly (second conjunct). -/
theorem status_save_load_roundtrip (r : DownloadStatus) :
    load_download_status (save_download_status r) = r
    ∧ statusOfJson (statusToJson r) = some r := by
  constructor
  · rfl
  · simp [statusOfJson, statusToJson, Json.get, jsonStringList,
      decodeStrings_map_str, List.find?, Int.toNat']

end Share
